import Mathlib

/-!
Verification of the download-acquisition core of `download_hybrid.py`:
the progress ledger (`DownloadProgress`), the per-poll page classifier,
the browser payload capturer (`download_with_browser`), and the
per-identifier mirror orchestration loop in `main`.

Each definition is a shallow embedding of the corresponding Python code.
Machine-external effects (filesystem, browser, clock) are passed in as
explicit parameters; exceptions are modelled with `Except`.
-/

namespace DownloadHybrid

/-- The logical state of the progress ledger `DownloadProgress.data`:
the `downloaded` and `failed` lists of DOI strings.  The `last_update`
wall-clock timestamp that `save` also writes is real time, external to
the logical state, and is not modelled. -/
structure ProgressData where
  downloaded : List String
  failed : List String
deriving DecidableEq, Repr

/-- The constructor default `{"downloaded": [], "failed": [], ...}`. -/
def initProgress : ProgressData := ⟨[], []⟩

/-- Embeds `DownloadProgress.is_processed`: `doi in downloaded or doi in failed`. -/
def is_processed (s : ProgressData) (doi : String) : Bool :=
  doi ∈ s.downloaded || doi ∈ s.failed

/-- Embeds `DownloadProgress.mark_downloaded` (state change only; the `save()`
call is modelled separately): append `doi` to `downloaded` if absent,
remove it from `failed` if present. -/
def mark_downloaded (s : ProgressData) (doi : String) : ProgressData :=
  { downloaded := if doi ∈ s.downloaded then s.downloaded else s.downloaded ++ [doi]
    failed := if doi ∈ s.failed then s.failed.erase doi else s.failed }

/-- Embeds `DownloadProgress.mark_failed` (state change only): append `doi` to
`failed` only when it is in neither list. -/
def mark_failed (s : ProgressData) (doi : String) : ProgressData :=
  if doi ∉ s.failed ∧ doi ∉ s.downloaded then
    { downloaded := s.downloaded, failed := s.failed ++ [doi] }
  else s

/-- A ledger mutation, for reasoning about arbitrary call sequences. -/
inductive LOp where
  | markDownloaded (doi : String)
  | markFailed (doi : String)
deriving DecidableEq, Repr

/-- Apply one ledger mutation. -/
def applyOp (s : ProgressData) : LOp → ProgressData
  | .markDownloaded d => mark_downloaded s d
  | .markFailed d => mark_failed s d

/-- The ledger state reached from the empty ledger after a sequence of
`mark_downloaded` / `mark_failed` calls. -/
def run (ops : List LOp) : ProgressData :=
  ops.foldl applyOp initProgress

/-- Representation invariant of the ledger: both lists are duplicate-free
and no DOI is in both at once. -/
def Inv (s : ProgressData) : Prop :=
  s.downloaded.Nodup ∧ s.failed.Nodup ∧ ∀ d, d ∈ s.downloaded → d ∉ s.failed

theorem inv_init : Inv initProgress := by
  refine ⟨List.nodup_nil, List.nodup_nil, ?_⟩
  intro d h
  simp [initProgress] at h

theorem inv_mark_downloaded (s : ProgressData) (doi : String) (h : Inv s) :
    Inv (mark_downloaded s doi) := by
  obtain ⟨hd, hf, hdisj⟩ := h
  refine ⟨?_, ?_, ?_⟩
  · by_cases hmem : doi ∈ s.downloaded
    · simpa [mark_downloaded, hmem] using hd
    · simp only [mark_downloaded, hmem, if_false]
      simpa [List.nodup_append] using ⟨hd, hmem⟩
  · by_cases hmem : doi ∈ s.failed
    · simpa [mark_downloaded, hmem] using hf.erase doi
    · simpa [mark_downloaded, hmem] using hf
  · intro d hdmem
    simp only [mark_downloaded] at hdmem ⊢
    by_cases hmem : doi ∈ s.downloaded
    · simp only [hmem, if_true] at hdmem
      by_cases hfm : doi ∈ s.failed
      · simp only [hfm, if_true]
        intro hin
        rcases eq_or_ne d doi with rfl | hne
        · exact hf.not_mem_erase hin
        · exact hdisj d hdmem (List.mem_of_mem_erase hin)
      · simp only [hfm, if_false]
        exact hdisj d hdmem
    · simp only [hmem, if_false, List.mem_append, List.mem_singleton] at hdmem
      rcases hdmem with hdmem | rfl
      · by_cases hfm : doi ∈ s.failed
        · simp only [hfm, if_true]
          intro hin
          exact hdisj d hdmem (List.mem_of_mem_erase hin)
        · simpa [hfm] using hdisj d hdmem
      · by_cases hfm : d ∈ s.failed
        · simp only [hfm, if_true]
          exact hf.not_mem_erase
        · rw [if_neg hfm]
          exact hfm

theorem inv_mark_failed (s : ProgressData) (doi : String) (h : Inv s) :
    Inv (mark_failed s doi) := by
  obtain ⟨hd, hf, hdisj⟩ := h
  unfold mark_failed
  by_cases hc : doi ∉ s.failed ∧ doi ∉ s.downloaded
  · simp only [hc, if_true]
    refine ⟨hd, ?_, ?_⟩
    · simpa [List.nodup_append] using ⟨hf, hc.1⟩
    · intro d hdmem hin
      rcases List.mem_append.mp hin with hin2 | hin2
      · exact hdisj d hdmem hin2
      · exact hc.2 (List.mem_singleton.mp hin2 ▸ hdmem)
  · simpa [hc] using ⟨hd, hf, hdisj⟩

theorem inv_applyOp (s : ProgressData) (op : LOp) (h : Inv s) :
    Inv (applyOp s op) := by
  cases op with
  | markDownloaded d => exact inv_mark_downloaded s d h
  | markFailed d => exact inv_mark_failed s d h

theorem inv_foldl (ops : List LOp) (s : ProgressData) (h : Inv s) :
    Inv (ops.foldl applyOp s) := by
  induction ops generalizing s with
  | nil => exact h
  | cons op ops ih => exact ih (applyOp s op) (inv_applyOp s op h)

theorem inv_run (ops : List LOp) : Inv (run ops) :=
  inv_foldl ops initProgress inv_init

theorem mark_downloaded_eq_self (s : ProgressData) (d : String)
    (h1 : d ∈ s.downloaded) (h2 : d ∉ s.failed) : mark_downloaded s d = s := by
  simp [mark_downloaded, h1, h2]

theorem mem_downloaded_mark_downloaded (s : ProgressData) (d : String) :
    d ∈ (mark_downloaded s d).downloaded := by
  unfold mark_downloaded
  by_cases h : d ∈ s.downloaded
  · simp [h]
  · simp [h]

theorem not_mem_failed_mark_downloaded (s : ProgressData) (d : String)
    (hf : s.failed.Nodup) : d ∉ (mark_downloaded s d).failed := by
  unfold mark_downloaded
  by_cases h : d ∈ s.failed
  · simpa [h] using hf.not_mem_erase
  · simp [h]

/-- C1: starting from an empty ledger, after any sequence of
`mark_downloaded` and `mark_failed` calls, `is_processed d` is true iff
`d` belongs to exactly one of the downloaded and failed lists, and no
identifier is ever in both lists at once. -/
theorem c1_is_processed_iff_exactly_one (ops : List LOp) (d : String) :
    (is_processed (run ops) d = true ↔
      ((d ∈ (run ops).downloaded ∧ d ∉ (run ops).failed) ∨
       (d ∈ (run ops).failed ∧ d ∉ (run ops).downloaded))) ∧
    ¬(d ∈ (run ops).downloaded ∧ d ∈ (run ops).failed) := by
  obtain ⟨-, -, hdisj⟩ := inv_run ops
  constructor
  · simp only [is_processed, Bool.or_eq_true, decide_eq_true_eq]
    constructor
    · rintro (hdl | hfl)
      · exact Or.inl ⟨hdl, hdisj d hdl⟩
      · refine Or.inr ⟨hfl, fun hdl => ?_⟩
        exact hdisj d hdl hfl
    · rintro (⟨hdl, -⟩ | ⟨hfl, -⟩)
      · exact Or.inl hdl
      · exact Or.inr hfl
  · rintro ⟨hdl, hfl⟩
    exact hdisj d hdl hfl

/-- C2: on any ledger state reachable from the empty ledger,
`mark_failed d` with `d` already downloaded changes nothing (downloaded
status is never downgraded), while `mark_downloaded d` with `d` in the
failed list puts `d` in the downloaded list and removes it from the
failed list. -/
theorem c2_downloaded_priority (ops : List LOp) (d : String) :
    (d ∈ (run ops).downloaded → mark_failed (run ops) d = run ops) ∧
    (d ∈ (run ops).failed →
      d ∈ (mark_downloaded (run ops) d).downloaded ∧
      d ∉ (mark_downloaded (run ops) d).failed) := by
  obtain ⟨-, hf, -⟩ := inv_run ops
  constructor
  · intro h
    simp [mark_failed, h]
  · intro _
    exact ⟨mem_downloaded_mark_downloaded (run ops) d,
           not_mem_failed_mark_downloaded (run ops) d hf⟩

theorem c2_downloaded_priority_witness :
    ("a" ∈ (run [LOp.markDownloaded "a"]).downloaded ∧
      mark_failed (run [LOp.markDownloaded "a"]) "a" = run [LOp.markDownloaded "a"]) ∧
    ("b" ∈ (run [LOp.markFailed "b"]).failed ∧
      "b" ∈ (mark_downloaded (run [LOp.markFailed "b"]) "b").downloaded ∧
      "b" ∉ (mark_downloaded (run [LOp.markFailed "b"]) "b").failed) := by
  refine ⟨⟨by decide, (c2_downloaded_priority [LOp.markDownloaded "a"] "a").1 (by decide)⟩,
          ⟨by decide, ?_⟩⟩
  exact (c2_downloaded_priority [LOp.markFailed "b"] "b").2 (by decide)

/-- C9: on any ledger state reachable from the empty ledger, calling
`mark_downloaded d` twice leaves the ledger state identical to calling
it once (the `last_update` wall-clock timestamp is not part of the
logical state). -/
theorem c9_mark_downloaded_idempotent (ops : List LOp) (d : String) :
    mark_downloaded (mark_downloaded (run ops) d) d = mark_downloaded (run ops) d := by
  obtain ⟨-, hf, -⟩ := inv_run ops
  exact mark_downloaded_eq_self (mark_downloaded (run ops) d) d
    (mem_downloaded_mark_downloaded (run ops) d)
    (not_mem_failed_mark_downloaded (run ops) d hf)

/-- C10: starting from the empty ledger, after any sequence of
`mark_downloaded` and `mark_failed` calls, neither the downloaded list
nor the failed list contains the same identifier twice. -/
theorem c10_lists_nodup (ops : List LOp) :
    (run ops).downloaded.Nodup ∧ (run ops).failed.Nodup :=
  ⟨(inv_run ops).1, (inv_run ops).2.1⟩

/-- Python substring membership `pat in s`, on the underlying character
lists. -/
def strContains (s pat : String) : Bool := decide (pat.toList <:+: s.toList)

/-- Python `str.lower()`: lowercase every character (character-list
form of `String.toLower`, kept kernel-reducible). -/
def lowerStr (s : String) : String := String.mk (s.data.map Char.toLower)

/-- The four detector states visible in the poll loop of `main`, plus
`loading` for a poll that matches none of the checks. -/
inductive PageState where
  | challenge
  | unavailable
  | ready
  | loading
deriving DecidableEq, Repr

/-- A snapshot of the rendered page at one poll: its title and the
presence of each of the four content selectors queried by `main`. -/
structure PageSnapshot where
  title : String
  hasEmbedPdf : Bool
  hasIframePdf : Bool
  hasPdfLink : Bool
  hasSaveButton : Bool
deriving DecidableEq, Repr

/-- The `has_content` disjunction of `main` (lines 270-275): embed
element, `iframe#pdf`, `.pdf` hyperlink, or save button. -/
def hasContent (p : PageSnapshot) : Bool :=
  p.hasEmbedPdf || p.hasIframePdf || p.hasPdfLink || p.hasSaveButton

/-- One iteration of the poll loop in `main` (lines 257-282): the
`robot` title check first, then the `not available` title check, then
the content check; otherwise keep loading. Both title checks lowercase
the title before substring matching. -/
def classify (p : PageSnapshot) : PageState :=
  if strContains (lowerStr p.title) "robot" then PageState.challenge
  else if strContains (lowerStr p.title) "not available" then PageState.unavailable
  else if hasContent p then PageState.ready
  else PageState.loading

/-- C4: a poll whose title contains the challenge marker
(case-insensitively) is classified `challenge`, not `ready`, even when
the page also exposes ready-content markers: the title check is
evaluated first. -/
theorem c4_challenge_precedes_ready (p : PageSnapshot)
    (ht : strContains (lowerStr p.title) "robot" = true)
    (_hc : hasContent p = true) :
    classify p = PageState.challenge ∧ classify p ≠ PageState.ready := by
  rw [classify, if_pos ht]
  exact ⟨rfl, by intro h; cases h⟩

theorem c4_challenge_precedes_ready_witness :
    strContains (lowerStr "Robot Check") "robot" = true ∧
    hasContent ⟨"Robot Check", true, false, true, false⟩ = true ∧
    classify ⟨"Robot Check", true, false, true, false⟩ = PageState.challenge ∧
    classify ⟨"Robot Check", true, false, true, false⟩ ≠ PageState.ready := by
  refine ⟨by decide, by decide, ?_⟩
  exact c4_challenge_precedes_ready ⟨"Robot Check", true, false, true, false⟩
    (by decide) (by decide)

/-- Observable behaviour of one capture strategy inside
`download_with_browser`: the strategy body may raise an exception at
any point (`raised`), find no matching element / no usable PDF URL and
fall through (`notFound`), or perform a save, after which the target
file's existence and byte size are what the re-check sees (`saved`). -/
inductive StratResult where
  | raised
  | notFound
  | saved (fileExists : Bool) (size : Nat)
deriving DecidableEq, Repr

/-- Body of one strategy `try` block: an exception becomes
`Except.error`; otherwise the block returns `True` exactly when the
saved file exists with size strictly greater than 1000 bytes, and
falls through (`ok false`) otherwise. -/
def runStrat : StratResult → Except Unit Bool
  | .raised => Except.error ()
  | .notFound => Except.ok false
  | .saved ex size => Except.ok (ex && decide (1000 < size))

/-- The `except Exception` handler wrapped around each strategy: any
exception is caught (logged) and execution falls through to the next
strategy. -/
def catchAll (x : Except Unit Bool) : Except Unit Bool :=
  match x with
  | Except.error _ => Except.ok false
  | r => r

/-- Embeds `download_with_browser` (lines 103-185): three capture strategies
tried in order (save button, `.pdf` link, embed/iframe navigation),
each inside its own `try`/`except`; the first strategy whose saved file
validates returns `True`, and `False` is returned when none does. -/
def download_with_browser (s1 s2 s3 : StratResult) : Except Unit Bool :=
  match catchAll (runStrat s1) with
  | Except.error e => Except.error e
  | Except.ok true => Except.ok true
  | Except.ok false =>
    match catchAll (runStrat s2) with
    | Except.error e => Except.error e
    | Except.ok true => Except.ok true
    | Except.ok false =>
      match catchAll (runStrat s3) with
      | Except.error e => Except.error e
      | Except.ok true => Except.ok true
      | Except.ok false => Except.ok false

/-- A strategy validates exactly when its save produced an existing
file of strictly more than 1000 bytes. -/
def stratValid : StratResult → Bool
  | .saved ex size => ex && decide (1000 < size)
  | _ => false

theorem catchAll_runStrat (r : StratResult) :
    catchAll (runStrat r) = Except.ok (stratValid r) := by
  cases r <;> rfl

theorem download_with_browser_eq (s1 s2 s3 : StratResult) :
    download_with_browser s1 s2 s3 =
      Except.ok (stratValid s1 || stratValid s2 || stratValid s3) := by
  cases h1 : stratValid s1 <;> cases h2 : stratValid s2 <;> cases h3 : stratValid s3 <;>
    simp [download_with_browser, catchAll_runStrat, h1, h2, h3]

/-- C6: `download_with_browser` never lets an exception reach its
caller; an exception raised inside one strategy behaves exactly like
that strategy finding nothing, so the later strategies still run; and
when all three strategies fail it returns `False`. -/
theorem c6_no_exception_propagates (s1 s2 s3 : StratResult) :
    (∃ b, download_with_browser s1 s2 s3 = Except.ok b) ∧
    (download_with_browser StratResult.raised s2 s3 =
      download_with_browser StratResult.notFound s2 s3) ∧
    (download_with_browser s1 StratResult.raised s3 =
      download_with_browser s1 StratResult.notFound s3) ∧
    (stratValid s1 = false → stratValid s2 = false → stratValid s3 = false →
      download_with_browser s1 s2 s3 = Except.ok false) := by
  refine ⟨⟨stratValid s1 || stratValid s2 || stratValid s3, download_with_browser_eq s1 s2 s3⟩,
    ?_, ?_, ?_⟩
  · rw [download_with_browser_eq, download_with_browser_eq]
    rfl
  · rw [download_with_browser_eq, download_with_browser_eq]
    rfl
  · intro h1 h2 h3
    rw [download_with_browser_eq, h1, h2, h3]
    rfl

theorem c6_no_exception_propagates_witness :
    stratValid StratResult.raised = false ∧
    stratValid (StratResult.saved true 500) = false ∧
    stratValid StratResult.notFound = false ∧
    download_with_browser StratResult.raised (StratResult.saved true 500)
      StratResult.notFound = Except.ok false := by
  refine ⟨by decide, by decide, by decide, ?_⟩
  exact (c6_no_exception_propagates StratResult.raised (StratResult.saved true 500)
    StratResult.notFound).2.2.2 (by decide) (by decide) (by decide)

/-- C7: `download_with_browser` returns `True` exactly when some
strategy's re-check sees an existing file of strictly more than 1000
bytes (so `True` only comes from a validated save), and a save whose
re-check fails makes that strategy behave like finding nothing, so the
next strategy is attempted. -/
theorem c7_size_validation (s1 s2 s3 : StratResult) :
    (download_with_browser s1 s2 s3 =
      Except.ok (stratValid s1 || stratValid s2 || stratValid s3)) ∧
    (∀ ex size, stratValid (StratResult.saved ex size) = false →
      download_with_browser (StratResult.saved ex size) s2 s3 =
        download_with_browser StratResult.notFound s2 s3) := by
  refine ⟨download_with_browser_eq s1 s2 s3, ?_⟩
  intro ex size h
  rw [download_with_browser_eq, download_with_browser_eq, h]
  rfl

theorem c7_size_validation_witness :
    stratValid (StratResult.saved true 1000) = false ∧
    download_with_browser (StratResult.saved true 1000) (StratResult.saved true 2000)
      StratResult.notFound =
      download_with_browser StratResult.notFound (StratResult.saved true 2000)
        StratResult.notFound ∧
    download_with_browser (StratResult.saved true 1000) (StratResult.saved true 2000)
      StratResult.notFound = Except.ok true := by
  have h := c7_size_validation (StratResult.saved true 1000) (StratResult.saved true 2000)
    StratResult.notFound
  refine ⟨by decide, h.2 true 1000 (by decide), ?_⟩
  rw [h.1]
  rfl

/-- Outcome of one mirror attempt in `main`, as the attempt's `try`
block observes it: an exception around page opening/navigation
(`navError`), a `not available` title (`unavailable`), the wait-loop
budget expiring without content (`timeout`), or content detected
followed by a capture attempt whose result is `captureOk`. -/
inductive MirrorOutcome where
  | navError
  | unavailable
  | timeout
  | ready (captureOk : Bool)
deriving DecidableEq, Repr

/-- Externally visible steps of the per-identifier loop of `main`. -/
inductive Action where
  | openPage
  | runDetector
  | invokeCapturer
  | markDownloaded
  | markFailed
deriving DecidableEq, Repr

/-- One mirror attempt (lines 249-301): a page is opened; unless
navigation raised, the poll loop (detector) runs; on detected content
`download_with_browser` is invoked and its result decides the
attempt. Returns the steps taken and whether the capture succeeded. -/
def mirrorAttempt : MirrorOutcome → List Action × Bool
  | .navError => ([Action.openPage], false)
  | .unavailable => ([Action.openPage, Action.runDetector], false)
  | .timeout => ([Action.openPage, Action.runDetector], false)
  | .ready ok => ([Action.openPage, Action.runDetector, Action.invokeCapturer], ok)

/-- The `for mirror in SCIHUB_MIRRORS` loop (lines 244-301): attempts
mirrors in order and breaks as soon as one attempt succeeds. -/
def mirrorLoop : List MirrorOutcome → List Action × Bool
  | [] => ([], false)
  | m :: ms =>
    let a := mirrorAttempt m
    if a.2 then (a.1, true)
    else ((a.1 ++ (mirrorLoop ms).1), (mirrorLoop ms).2)

/-- The environment one identifier is processed in: whether its target
file already exists, that file's byte size, and the outcome each
configured mirror would produce. -/
structure DoiEnv where
  fileExists : Bool
  fileSize : Nat
  mirrors : List MirrorOutcome
deriving DecidableEq, Repr

/-- Per-identifier processing in `main` (lines 236-311): if the target
file exists with size strictly greater than 1000 bytes, the identifier
is marked downloaded and the loop continues to the next identifier;
otherwise the mirror loop runs and exactly one ledger mark (downloaded
on success, failed otherwise) is recorded afterwards. -/
def processDoi (env : DoiEnv) : List Action :=
  if env.fileExists && decide (1000 < env.fileSize) then [Action.markDownloaded]
  else
    (mirrorLoop env.mirrors).1 ++
      [if (mirrorLoop env.mirrors).2 then Action.markDownloaded else Action.markFailed]

/-- A mirror attempt that did not capture: `not available` title,
wait-budget expiry, or detected content whose capture failed. -/
def failedOutcome (m : MirrorOutcome) : Prop :=
  m = MirrorOutcome.unavailable ∨ m = MirrorOutcome.timeout ∨ m = MirrorOutcome.ready false

theorem mirrorAttempt_failed_flag (m : MirrorOutcome) (h : failedOutcome m) :
    (mirrorAttempt m).2 = false := by
  rcases h with rfl | rfl | rfl <;> rfl

theorem markFailed_not_mem_attempt (m : MirrorOutcome) :
    Action.markFailed ∉ (mirrorAttempt m).1 := by
  cases m <;> simp [mirrorAttempt]

theorem mirrorLoop_flag_false (ms : List MirrorOutcome)
    (h : ∀ m ∈ ms, (mirrorAttempt m).2 = false) : (mirrorLoop ms).2 = false := by
  induction ms with
  | nil => rfl
  | cons m ms ih =>
    have hm := h m (List.mem_cons_self m ms)
    simp only [mirrorLoop, hm, Bool.false_eq_true, if_false]
    exact ih fun x hx => h x (List.mem_cons_of_mem m hx)

theorem markFailed_not_mem_mirrorLoop (ms : List MirrorOutcome) :
    Action.markFailed ∉ (mirrorLoop ms).1 := by
  induction ms with
  | nil => simp [mirrorLoop]
  | cons m ms ih =>
    simp only [mirrorLoop]
    cases h : (mirrorAttempt m).2 with
    | true =>
      simp only [h, if_true]
      exact markFailed_not_mem_attempt m
    | false =>
      simp only [h, Bool.false_eq_true, if_false]
      intro hmem
      rcases List.mem_append.mp hmem with hx | hx
      · exact markFailed_not_mem_attempt m hx
      · exact ih hx

/-- C3 as stated is false on the code: the short-circuit requires the
pre-existing file to be strictly larger than 1000 bytes, so a file of
exactly 1000 bytes does not short-circuit — the mirror loop runs. -/
theorem c3_counterexample :
    (DoiEnv.mk true 1000 [MirrorOutcome.unavailable]).fileExists = true ∧
    1000 ≤ (DoiEnv.mk true 1000 [MirrorOutcome.unavailable]).fileSize ∧
    processDoi (DoiEnv.mk true 1000 [MirrorOutcome.unavailable]) ≠
      [Action.markDownloaded] ∧
    Action.openPage ∈ processDoi (DoiEnv.mk true 1000 [MirrorOutcome.unavailable]) := by
  decide

/-- C3 (amended: the threshold is strictly greater than 1000 bytes):
when the target file already exists with size strictly greater than
1000 bytes, the identifier is marked downloaded and no page is opened,
no detector poll runs, and the capturer is never invoked. -/
theorem c3_preexisting_file_short_circuit (env : DoiEnv)
    (hex : env.fileExists = true) (hsz : 1000 < env.fileSize) :
    processDoi env = [Action.markDownloaded] ∧
    Action.openPage ∉ processDoi env ∧
    Action.runDetector ∉ processDoi env ∧
    Action.invokeCapturer ∉ processDoi env := by
  have hcond : (env.fileExists && decide (1000 < env.fileSize)) = true := by
    rw [hex, decide_eq_true hsz]
    rfl
  rw [processDoi, if_pos hcond]
  refine ⟨rfl, ?_, ?_, ?_⟩ <;> simp

theorem c3_preexisting_file_short_circuit_witness :
    (DoiEnv.mk true 5000 [MirrorOutcome.unavailable]).fileExists = true ∧
    1000 < (DoiEnv.mk true 5000 [MirrorOutcome.unavailable]).fileSize ∧
    processDoi (DoiEnv.mk true 5000 [MirrorOutcome.unavailable]) =
      [Action.markDownloaded] := by
  refine ⟨rfl, by decide, ?_⟩
  exact (c3_preexisting_file_short_circuit (DoiEnv.mk true 5000 [MirrorOutcome.unavailable])
    rfl (by decide)).1

/-- C5: for an identifier that is not short-circuited, (1) after the
first mirror fails with `not available`, timeout, or capture failure,
the second mirror's attempt appears in the trace before the final
ledger mark, and no `mark_failed` occurs during the attempts; (2) the
mirror loop stops at the first successful capture; (3) when every
mirror attempt fails, the trace records exactly one `mark_failed`. -/
theorem c5_mirror_fallback (env : DoiEnv) (m1 m2 : MirrorOutcome)
    (rest ms : List MirrorOutcome) (m : MirrorOutcome) :
    ((env.fileExists && decide (1000 < env.fileSize)) = false →
      env.mirrors = m1 :: m2 :: rest → failedOutcome m1 →
      ∃ tail, processDoi env = (mirrorAttempt m1).1 ++ ((mirrorAttempt m2).1 ++ tail) ∧
        Action.markFailed ∉ (mirrorAttempt m1).1 ++ (mirrorAttempt m2).1) ∧
    ((mirrorAttempt m).2 = true → mirrorLoop (m :: ms) = ((mirrorAttempt m).1, true)) ∧
    ((env.fileExists && decide (1000 < env.fileSize)) = false →
      (∀ x ∈ env.mirrors, (mirrorAttempt x).2 = false) →
      (processDoi env).count Action.markFailed = 1) := by
  refine ⟨?_, ?_, ?_⟩
  · intro hns hm hfail
    have h1 : (mirrorAttempt m1).2 = false := mirrorAttempt_failed_flag m1 hfail
    have hni : ¬((env.fileExists && decide (1000 < env.fileSize)) = true) := by
      rw [hns]
      exact Bool.false_ne_true
    have hnf : Action.markFailed ∉ (mirrorAttempt m1).1 ++ (mirrorAttempt m2).1 := by
      intro hmem
      rcases List.mem_append.mp hmem with hx | hx
      · exact markFailed_not_mem_attempt m1 hx
      · exact markFailed_not_mem_attempt m2 hx
    rw [processDoi, if_neg hni, hm]
    cases h2 : (mirrorAttempt m2).2 with
    | true =>
      refine ⟨[Action.markDownloaded], ?_, hnf⟩
      simp [mirrorLoop, h1, h2, List.append_assoc]
    | false =>
      refine ⟨(mirrorLoop rest).1 ++
        [if (mirrorLoop rest).2 then Action.markDownloaded else Action.markFailed], ?_, hnf⟩
      simp [mirrorLoop, h1, h2, List.append_assoc]
  · intro h
    simp [mirrorLoop, h]
  · intro hns hall
    have hni : ¬((env.fileExists && decide (1000 < env.fileSize)) = true) := by
      rw [hns]
      exact Bool.false_ne_true
    rw [processDoi, if_neg hni, List.count_append,
      mirrorLoop_flag_false env.mirrors hall,
      List.count_eq_zero.mpr (markFailed_not_mem_mirrorLoop env.mirrors)]
    rfl

theorem c5_mirror_fallback_witness :
    (∃ tail,
      processDoi (DoiEnv.mk false 0 [MirrorOutcome.unavailable, MirrorOutcome.ready true]) =
        (mirrorAttempt MirrorOutcome.unavailable).1 ++
          ((mirrorAttempt (MirrorOutcome.ready true)).1 ++ tail) ∧
      Action.markFailed ∉ (mirrorAttempt MirrorOutcome.unavailable).1 ++
        (mirrorAttempt (MirrorOutcome.ready true)).1) ∧
    mirrorLoop [MirrorOutcome.ready true] =
      ((mirrorAttempt (MirrorOutcome.ready true)).1, true) ∧
    (processDoi (DoiEnv.mk false 0 [MirrorOutcome.unavailable, MirrorOutcome.timeout])).count
      Action.markFailed = 1 := by
  refine ⟨?_, ?_, ?_⟩
  · exact (c5_mirror_fallback
      (DoiEnv.mk false 0 [MirrorOutcome.unavailable, MirrorOutcome.ready true])
      MirrorOutcome.unavailable (MirrorOutcome.ready true) [] []
      MirrorOutcome.navError).1 (by decide) rfl (Or.inl rfl)
  · exact (c5_mirror_fallback (DoiEnv.mk false 0 []) MirrorOutcome.navError
      MirrorOutcome.navError [] [] (MirrorOutcome.ready true)).2.1 rfl
  · exact (c5_mirror_fallback
      (DoiEnv.mk false 0 [MirrorOutcome.unavailable, MirrorOutcome.timeout])
      MirrorOutcome.navError MirrorOutcome.navError [] []
      MirrorOutcome.navError).2.2 (by decide) (by decide)

/-- The `try` body of `DownloadProgress.load`: when no progress file
exists nothing is read (defaults stand); otherwise the parse either
raises or yields the persisted ledger state. -/
def loadBody (file : Option (Except Unit ProgressData)) : Except Unit ProgressData :=
  match file with
  | none => Except.ok initProgress
  | some r => r

/-- Embeds `DownloadProgress.load` (lines 45-52): the parse is wrapped in
`try`/`except Exception: pass`, so a corrupt file leaves the
constructor's empty defaults in place. -/
def load (file : Option (Except Unit ProgressData)) : Except Unit ProgressData :=
  match loadBody file with
  | Except.error _ => Except.ok initProgress
  | r => r

/-- Embeds `mark_downloaded` followed by `self.save()` (line 67): the persist
step has no exception handler, so its failure propagates. -/
def mark_downloaded_io (persist : ProgressData → Except Unit Unit) (s : ProgressData)
    (doi : String) : Except Unit ProgressData :=
  match persist (mark_downloaded s doi) with
  | Except.error e => Except.error e
  | Except.ok _ => Except.ok (mark_downloaded s doi)

/-- Embeds `mark_failed` followed by `self.save()` (line 72): the persist step
has no exception handler, so its failure propagates. -/
def mark_failed_io (persist : ProgressData → Except Unit Unit) (s : ProgressData)
    (doi : String) : Except Unit ProgressData :=
  match persist (mark_failed s doi) with
  | Except.error e => Except.error e
  | Except.ok _ => Except.ok (mark_failed s doi)

/-- C8: loading never raises — a missing or corrupt progress file
leaves the ledger at its empty defaults — while a failing persist
propagates as an error out of both `mark_downloaded` and
`mark_failed`. -/
theorem c8_load_absorbed_persist_propagates
    (f : Option (Except Unit ProgressData)) (p : ProgressData → Except Unit Unit)
    (s : ProgressData) (doi : String) :
    (∃ d, load f = Except.ok d) ∧
    load none = Except.ok initProgress ∧
    load (some (Except.error ())) = Except.ok initProgress ∧
    (p (mark_downloaded s doi) = Except.error () →
      mark_downloaded_io p s doi = Except.error ()) ∧
    (p (mark_failed s doi) = Except.error () →
      mark_failed_io p s doi = Except.error ()) := by
  refine ⟨?_, rfl, rfl, ?_, ?_⟩
  · match f with
    | none => exact ⟨initProgress, rfl⟩
    | some (Except.error _) => exact ⟨initProgress, rfl⟩
    | some (Except.ok d) => exact ⟨d, rfl⟩
  · intro h
    rw [mark_downloaded_io, h]
  · intro h
    rw [mark_failed_io, h]

theorem c8_load_absorbed_persist_propagates_witness :
    (∃ d, load (some (Except.ok (ProgressData.mk ["a"] []))) = Except.ok d) ∧
    load none = Except.ok initProgress ∧
    ((fun _ => (Except.error () : Except Unit Unit)) (mark_downloaded initProgress "a") =
      Except.error () ∧
      mark_downloaded_io (fun _ => Except.error ()) initProgress "a" = Except.error ()) ∧
    ((fun _ => (Except.error () : Except Unit Unit)) (mark_failed initProgress "a") =
      Except.error () ∧
      mark_failed_io (fun _ => Except.error ()) initProgress "a" = Except.error ()) := by
  have h := c8_load_absorbed_persist_propagates
    (some (Except.ok (ProgressData.mk ["a"] []))) (fun _ => Except.error ())
    initProgress "a"
  exact ⟨h.1, h.2.1, ⟨rfl, h.2.2.2.1 rfl⟩, ⟨rfl, h.2.2.2.2 rfl⟩⟩

end DownloadHybrid
